import Mathlib

/-!
Verification of the gRPC trace-interceptor package (`grpc.go`) of the
`trace` repository: a shallow embedding of the interceptors, the stream
wrappers and the trace-header codec, together with theorems settling the
specification's claims.

Only `grpc.go` is available as source; the surrounding package (the
`Span` object with `Finish`/`SetLabel`/`NewChild`, the header codec
`spanHeader`/decode, the session operation `SpanFromHeader`, and the
context helpers `FromContext`/`NewContext`) is modelled from the spec,
as marked on each definition.
-/

namespace Trace

/-- The metadata key used for the trace context header
(`grpcMetadataKey` in grpc.go). -/
def grpcMetadataKey : String := "x-cloud-trace-context"

/-! ## Decimal printing and parsing, used by the header codec -/

/-- The ASCII character of a decimal digit. -/
def digitChar (d : Nat) : Char := Char.ofNat (48 + d)

/-- Decimal digit characters of `n`, most significant first
(the empty list for `0`). -/
def decChars (n : Nat) : List Char := ((Nat.digits 10 n).map digitChar).reverse

/-- Decimal representation of `n` as a character list (Go `%d`). -/
def decStr (n : Nat) : List Char := if n = 0 then ['0'] else decChars n

/-- Decimal representation of `n` as a string. -/
def natToDecStr (n : Nat) : String := ⟨decStr n⟩

/-- Parse a list of decimal digit characters, most significant first. -/
def parseDec (cs : List Char) : Nat :=
  cs.foldl (fun a c => 10 * a + (c.toNat - 48)) 0

/-! ## Header codec -/

/-- Modelled from the spec: `encode(traceID, spanID, options)` of §4.1,
the package-private `spanHeader` function, which is not under src/.
Produces `"<traceID>/<spanID>;o=<options>"` with decimal spanID and
options. -/
def spanHeader (traceID : String) (spanID options : Nat) : String :=
  traceID ++ "/" ++ natToDecStr spanID ++ ";o=" ++ natToDecStr options

/-- Modelled from the spec: `decode(header)` of §4.1, which is not under
src/. Best-effort parse of `"<traceID>/<spanID>;o=<options>"`: the part
before the first `/` is the traceID, then a run of decimal digits is the
spanID, then after a literal `;o=` a run of decimal digits is the
options; missing or malformed fields degrade to zero values and the
parse never fails. -/
def decodeOptions : List Char → Nat
  | ';' :: 'o' :: '=' :: os => parseDec (os.takeWhile Char.isDigit)
  | _ => 0

def decodeHeader (h : String) : String × Nat × Nat :=
  (⟨h.data.takeWhile (fun c => c != '/')⟩,
   parseDec (((h.data.dropWhile (fun c => c != '/')).drop 1).takeWhile Char.isDigit),
   decodeOptions (((h.data.dropWhile (fun c => c != '/')).drop 1).dropWhile Char.isDigit))

/-! ### Round-trip lemmas for the codec -/

theorem digitChar_toNat {d : Nat} (h : d < 10) : (digitChar d).toNat = 48 + d := by
  interval_cases d <;> decide

theorem isDigit_digitChar {d : Nat} (h : d < 10) : (digitChar d).isDigit = true := by
  interval_cases d <;> decide

theorem digitChar_bne_slash {d : Nat} (h : d < 10) : (digitChar d != '/') = true := by
  interval_cases d <;> decide

theorem mem_decChars {c : Char} {n : Nat} (hc : c ∈ decChars n) :
    ∃ d, d < 10 ∧ c = digitChar d := by
  simp only [decChars, List.mem_reverse, List.mem_map] at hc
  obtain ⟨d, hd, rfl⟩ := hc
  exact ⟨d, Nat.digits_lt_base (by norm_num) hd, rfl⟩

theorem mem_decStr_isDigit {c : Char} {n : Nat} (hc : c ∈ decStr n) :
    c.isDigit = true := by
  unfold decStr at hc
  split at hc
  · simp at hc; subst hc; decide
  · obtain ⟨d, hd, rfl⟩ := mem_decChars hc
    exact isDigit_digitChar hd

theorem mem_decStr_bne_slash {c : Char} {n : Nat} (hc : c ∈ decStr n) :
    (c != '/') = true := by
  unfold decStr at hc
  split at hc
  · simp at hc; subst hc; decide
  · obtain ⟨d, hd, rfl⟩ := mem_decChars hc
    exact digitChar_bne_slash hd

theorem foldl_decChars (D : List Nat) (hD : ∀ d ∈ D, d < 10) (a : Nat) :
    ((D.map digitChar).reverse).foldl (fun a c => 10 * a + (c.toNat - 48)) a
      = Nat.ofDigits 10 D + a * 10 ^ D.length := by
  induction D generalizing a with
  | nil => simp [Nat.ofDigits_nil]
  | cons d D ih =>
    have hd : d < 10 := hD d (List.mem_cons_self d D)
    have hD' : ∀ x ∈ D, x < 10 := fun x hx => hD x (List.mem_cons_of_mem d hx)
    simp only [List.map_cons, List.reverse_cons, List.foldl_append, List.foldl_cons,
      List.foldl_nil]
    rw [ih hD', digitChar_toNat hd, Nat.ofDigits_cons, List.length_cons]
    ring_nf
    omega

theorem parseDec_decChars (n : Nat) : parseDec (decChars n) = n := by
  have h := foldl_decChars (Nat.digits 10 n)
    (fun d hd => Nat.digits_lt_base (by norm_num) hd) 0
  simp only [decChars, parseDec]
  rw [h]
  have := Nat.ofDigits_digits 10 n
  omega

theorem parseDec_decStr (n : Nat) : parseDec (decStr n) = n := by
  unfold decStr
  split
  · subst n; decide
  · exact parseDec_decChars n

theorem takeWhile_append_of_head_false (p : Char → Bool) (l : List Char) (x : Char)
    (r : List Char) (hl : ∀ c ∈ l, p c = true) (hx : p x = false) :
    (l ++ x :: r).takeWhile p = l := by
  induction l with
  | nil => simp [List.takeWhile, hx]
  | cons c l ih =>
    have hc : p c = true := hl c (List.mem_cons_self c l)
    simp only [List.cons_append, List.takeWhile_cons, hc, if_true]
    rw [ih (fun d hd => hl d (List.mem_cons_of_mem c hd))]

theorem dropWhile_append_of_head_false (p : Char → Bool) (l : List Char) (x : Char)
    (r : List Char) (hl : ∀ c ∈ l, p c = true) (hx : p x = false) :
    (l ++ x :: r).dropWhile p = x :: r := by
  induction l with
  | nil => simp [List.dropWhile, hx]
  | cons c l ih =>
    have hc : p c = true := hl c (List.mem_cons_self c l)
    simp only [List.cons_append, List.dropWhile_cons, hc, if_true]
    exact ih (fun d hd => hl d (List.mem_cons_of_mem c hd))

theorem takeWhile_all (p : Char → Bool) (l : List Char) (hl : ∀ c ∈ l, p c = true) :
    l.takeWhile p = l := by
  induction l with
  | nil => rfl
  | cons c l ih =>
    have hc : p c = true := hl c (List.mem_cons_self c l)
    simp only [List.takeWhile_cons, hc, if_true]
    rw [ih (fun d hd => hl d (List.mem_cons_of_mem c hd))]

/-- Decoding an encoded header recovers the triple, provided the traceID
contains no `/` separator. -/
theorem decode_spanHeader (t : String) (s o : Nat) (ht : ∀ c ∈ t.data, (c != '/') = true) :
    decodeHeader (spanHeader t s o) = (t, s, o) := by
  have hdata : (spanHeader t s o).data
      = t.data ++ '/' :: (decStr s ++ ';' :: 'o' :: '=' :: decStr o) := by
    simp [spanHeader, natToDecStr, String.data_append]
  unfold decodeHeader
  rw [hdata]
  rw [takeWhile_append_of_head_false _ _ _ _ ht (by decide)]
  rw [dropWhile_append_of_head_false _ _ _ _ ht (by decide)]
  simp only [List.drop_succ_cons, List.drop_zero]
  rw [takeWhile_append_of_head_false Char.isDigit (decStr s) ';' _
    (fun c hc => mem_decStr_isDigit hc) (by decide)]
  rw [dropWhile_append_of_head_false Char.isDigit (decStr s) ';' _
    (fun c hc => mem_decStr_isDigit hc) (by decide)]
  simp only [decodeOptions]
  rw [takeWhile_all Char.isDigit (decStr o) (fun c hc => mem_decStr_isDigit hc)]
  rw [parseDec_decStr, parseDec_decStr]

/-! ## Spans

The `Span` object itself lives outside grpc.go; its observable state and
the operations grpc.go invokes on it are modelled from the spec. A Go
`*Span` may be nil, and every method is a safe no-op on a nil receiver
(spec §9), so a span reference is an `Option SpanData`. -/

/-- Modelled from the spec (§3, §6): the observable state of a `Span`.
`reported` counts how many times the span has been reported to the
backend; `finished` records whether `Finish` has taken effect. -/
structure SpanData where
  traceID : String
  spanID : Nat
  parentSpanId : Nat
  options : Nat
  name : String
  labels : List (String × String)
  finished : Bool
  reported : Nat
  deriving DecidableEq, Repr

/-- Modelled from the spec (§3 invariant, §9): `Finish` is observably
idempotent — the first call reports the span and marks it finished,
later calls change nothing; on a nil receiver it is a no-op. -/
def Span.Finish : Option SpanData → Option SpanData
  | none => none
  | some s =>
    if s.finished then some s
    else some { s with finished := true, reported := s.reported + 1 }

/-- Modelled from the spec (§6): `setLabel(key, value)`; no-op on nil. -/
def Span.SetLabel (sp : Option SpanData) (k v : String) : Option SpanData :=
  match sp with
  | none => none
  | some s => some { s with labels := s.labels ++ [(k, v)] }

/-- Modelled from the spec (§4.2 step 2): `newChild(name)` derives a
child span — new spanID, same traceID, parentSpanID = the receiver's
spanID, inherited global options; nil receiver yields nil. The fresh
spanID is drawn at random in the implementation and is passed here as
the explicit argument `newID`. -/
def Span.NewChild (sp : Option SpanData) (name : String) (newID : Nat) : Option SpanData :=
  match sp with
  | none => none
  | some s => some ⟨s.traceID, newID, s.spanID, s.options, name, [], false, 0⟩

/-- Modelled from the spec (§4.3 step 2, §6, §8): the trace session's
`spanFromHeader(defaultName, headerValue)` decodes the header and
reconstructs a span whose traceID, parent-span-id and options come from
the decoded fields (e.g. header `"abc/42;o=1"` yields parent-span-id
`42`). The reconstructed span's own fresh spanID is irrelevant to the
claims and is modelled as `0`. -/
def SpanFromHeader (name : String) (h : String) : Option SpanData :=
  some ⟨(decodeHeader h).1, 0, (decodeHeader h).2.1, (decodeHeader h).2.2, name, [], false, 0⟩

/-! ## Metadata bags

Go `metadata.MD` is a mutable map from keys to ordered value lists,
shared by reference. To state aliasing properties faithfully, bags live
in a store indexed by references (`Nat`); `alloc` models creating a bag
(`metadata.Pairs`, `md.Copy`) and `setKey` models the in-place
assignment `md[key] = vals` on the referenced bag. -/

/-- A metadata bag's contents: `none` for an absent key (Go's two-value
map lookup `md[k]` with `ok = false`). -/
def MD : Type := String → Option (List String)

/-- The bag `metadata.Pairs(k, v)`: one key bound to one value. -/
def mdPairs (k v : String) : MD := fun key => if key = k then some [v] else none

/-- In-place assignment `m[k] = vs` at the value level. -/
def mdSet (m : MD) (k : String) (vs : List String) : MD :=
  fun key => if key = k then some vs else m key

/-- The heap of metadata bags: `bags i` is the contents of reference
`i`; references `≥ size` are unallocated. -/
structure MDStore where
  size : Nat
  bags : Nat → MD

/-- Allocate a fresh bag holding `m`; returns the new store and the
fresh reference. -/
def MDStore.alloc (st : MDStore) (m : MD) : MDStore × Nat :=
  (⟨st.size + 1, fun i => if i = st.size then m else st.bags i⟩, st.size)

/-- Mutate the bag at reference `r` in place: set `k` to `vs`. -/
def MDStore.setKey (st : MDStore) (r : Nat) (k : String) (vs : List String) : MDStore :=
  ⟨st.size, fun i => if i = r then mdSet (st.bags r) k vs else st.bags i⟩

/-! ## Contexts -/

/-- A client-side call context: the ambient span (`FromContext`, which
`NewChild` is called on) and the outgoing-metadata reference
(`metadata.FromOutgoingContext`, `ok = false` when `none`). -/
structure Ctx where
  span : Option SpanData
  outMD : Option Nat
  deriving DecidableEq

/-- The header-injection block shared verbatim by `grpcUnaryInterceptor`
(grpc.go lines 44–54) and `grpcStreamClientInterceptor` (lines 138–148):
if the child span is non-nil, encode its identifiers
(`spanHeader(span.trace.traceID, span.span.ParentSpanId,
span.trace.globalOptions)`), then either build a fresh bag
(`metadata.Pairs`) when the context has no outgoing metadata, or copy
the existing bag and set the key on the copy; install the result on the
context. Returns the updated context and store. -/
def injectSpanHeader (ctx : Ctx) (st : MDStore) (span : Option SpanData) : Ctx × MDStore :=
  match span with
  | none => (ctx, st)
  | some s =>
    let header := spanHeader s.traceID s.parentSpanId s.options
    match ctx.outMD with
    | none =>
      let ar := MDStore.alloc st (mdPairs grpcMetadataKey header)
      ({ ctx with outMD := some ar.2 }, ar.1)
    | some r0 =>
      let ar := MDStore.alloc st (st.bags r0)
      ({ ctx with outMD := some ar.2 },
       MDStore.setKey ar.1 ar.2 grpcMetadataKey [header])

/-! ## Unary client interceptor (grpc.go lines 39–62) -/

/-- What `grpcUnaryInterceptor` produces, observably: the context the
invoker was called with, the final heap of metadata bags, the returned
error, and the final state of the child span object (after the deferred
`Finish`). -/
structure UnaryResult where
  invCtx : Ctx
  store : MDStore
  retErr : Option String
  spanAfter : Option SpanData

/-- `grpcUnaryInterceptor`: derive a child span, inject the header,
invoke, label the span `"error"` on a non-nil error, return the error
unchanged; the deferred `span.Finish()` runs last. The invoker's
behaviour is the parameter `invoker` (its error result as a function of
the context it receives). -/
def grpcUnaryInterceptor (ctx : Ctx) (st : MDStore) (method : String) (newID : Nat)
    (invoker : Ctx → Option String) : UnaryResult :=
  let span := Span.NewChild ctx.span method newID
  let cs := injectSpanHeader ctx st span
  let err := invoker cs.1
  let span2 :=
    match err with
    | none => span
    | some e => Span.SetLabel span "error" e
  ⟨cs.1, cs.2, err, Span.Finish span2⟩

/-! ## Client stream wrapper and interceptor (grpc.go lines 89–156) -/

/-- `ClientStreamWrapper`: the underlying stream handle is opaque; only
the span state matters to the claims. -/
structure ClientStreamWrapper where
  span : Option SpanData
  deriving DecidableEq

/-- `CloseSend` (lines 102–107): finish the span if non-nil, then return
the underlying stream's `CloseSend` error (`closeErr`). -/
def ClientStreamWrapper.CloseSend (w : ClientStreamWrapper) (closeErr : Option String) :
    ClientStreamWrapper × Option String :=
  (if w.span.isSome then { w with span := Span.Finish w.span } else w, closeErr)

/-- `SendMsg` (lines 113–119): forward; on a non-nil error with a
non-nil span, finish the span; return the error unchanged. `err` is the
underlying stream's result. -/
def ClientStreamWrapper.SendMsg (w : ClientStreamWrapper) (err : Option String) :
    ClientStreamWrapper × Option String :=
  (if err.isSome && w.span.isSome then { w with span := Span.Finish w.span } else w, err)

/-- `RecvMsg` (lines 121–127): same finish-on-error logic as `SendMsg`. -/
def ClientStreamWrapper.RecvMsg (w : ClientStreamWrapper) (err : Option String) :
    ClientStreamWrapper × Option String :=
  (if err.isSome && w.span.isSome then { w with span := Span.Finish w.span } else w, err)

/-- What `grpcStreamClientInterceptor` produces: the context given to
the streamer, the final store, the returned wrapper (or `none`), the
returned error, and the final state of the child span object. -/
structure StreamClientResult where
  invCtx : Ctx
  store : MDStore
  wrapper : Option ClientStreamWrapper
  retErr : Option String
  spanAfter : Option SpanData

/-- `grpcStreamClientInterceptor` (lines 133–156): derive a child span,
inject the header, call the streamer; on error finish the span and
return `(nil, err)`; otherwise return the wrapper holding the span. -/
def grpcStreamClientInterceptor (ctx : Ctx) (st : MDStore) (method : String) (newID : Nat)
    (streamer : Ctx → Option String) : StreamClientResult :=
  let span := Span.NewChild ctx.span method newID
  let cs := injectSpanHeader ctx st span
  let se := streamer cs.1
  ⟨cs.1, cs.2,
   match se with
   | some _ => none
   | none => some ⟨span⟩,
   se,
   match se with
   | some _ => Span.Finish span
   | none => span⟩

/-! ## Server-side contexts and the unary server interceptor
(grpc.go lines 70–80) -/

/-- A server-side call context: the incoming metadata bag (read-only,
so held by value; `none` when `metadata.FromIncomingContext` reports
`ok = false`) and the span bound by `NewContext` (read by
`FromContext`). -/
structure SrvCtx where
  inMD : Option MD
  span : Option SpanData

/-- The two-value lookup `md[k]` after `md, _ :=
metadata.FromIncomingContext(ctx)`: a nil bag holds no key. -/
def incomingLookup (ctx : SrvCtx) (k : String) : Option (List String) :=
  match ctx.inMD with
  | none => none
  | some m => m k

/-- Go's `strings.Join(xs, "")`: concatenation of all values with the
empty separator. -/
def strJoin : List String → String
  | [] => ""
  | s :: rest => s ++ strJoin rest

/-- What the unary server interceptor produces: the context the handler
ran with, the handler's response and error (returned unchanged), and
the final state of the reconstructed span object (`none` when no span
was created). -/
structure SrvUnaryResult (α : Type) where
  handlerCtx : SrvCtx
  resp : α
  retErr : Option String
  spanAfter : Option SpanData

/-- `GRPCServerInterceptor` (lines 70–80): if the incoming metadata has
the trace key, reconstruct a span from the joined header values, bind
it into the context, run the handler, and (deferred) finish the span;
otherwise run the handler on the original context. The handler's
behaviour is the parameter `handler`. -/
def GRPCServerInterceptor {α : Type} (ctx : SrvCtx)
    (handler : SrvCtx → α × Option String) : SrvUnaryResult α :=
  match incomingLookup ctx grpcMetadataKey with
  | some header =>
    let span := SpanFromHeader "" (strJoin header)
    let ctx2 := { ctx with span := span }
    let r := handler ctx2
    ⟨ctx2, r.1, r.2, Span.Finish span⟩
  | none =>
    let r := handler ctx
    ⟨ctx, r.1, r.2, none⟩

/-! ## Server stream wrapper and interceptor (grpc.go lines 158–213) -/

/-- `ServerStreamWrapper`: the underlying stream handle is opaque; the
wrapper's span state and the derived context it exposes via
`Context()` are what the claims observe. -/
structure ServerStreamWrapper where
  span : Option SpanData
  context : SrvCtx

/-- `SendMsg` (lines 180–187): forward; on a non-nil error with a
non-nil span, finish the span (the log line is diagnostics only);
return the error unchanged. -/
def ServerStreamWrapper.SendMsg (w : ServerStreamWrapper) (err : Option String) :
    ServerStreamWrapper × Option String :=
  (if err.isSome && w.span.isSome then { w with span := Span.Finish w.span } else w, err)

/-- `RecvMsg` (lines 189–196): same finish-on-error logic as `SendMsg`. -/
def ServerStreamWrapper.RecvMsg (w : ServerStreamWrapper) (err : Option String) :
    ServerStreamWrapper × Option String :=
  (if err.isSome && w.span.isSome then { w with span := Span.Finish w.span } else w, err)

/-- One send or receive the handler performs on the wrapped stream,
carrying the underlying stream's error result for that operation. -/
inductive StreamOp where
  | send (err : Option String)
  | recv (err : Option String)

/-- The effect on the wrapper of the sequence of stream operations the
handler performs during its run. -/
def ServerStreamWrapper.run (w : ServerStreamWrapper) : List StreamOp → ServerStreamWrapper
  | [] => w
  | StreamOp.send e :: rest => ServerStreamWrapper.run (ServerStreamWrapper.SendMsg w e).1 rest
  | StreamOp.recv e :: rest => ServerStreamWrapper.run (ServerStreamWrapper.RecvMsg w e).1 rest

/-- What the stream server interceptor produces: whether the handler got
a wrapper, the span visible through the stream's context, the returned
error (the handler's, unchanged), and the final state of the
reconstructed span object. -/
structure SrvStreamResult where
  handlerWrapped : Bool
  handlerCtxSpan : Option SpanData
  retErr : Option String
  spanAfter : Option SpanData

/-- `GRPCStreamServerInterceptor` (lines 198–213): if the incoming
metadata has the trace key, reconstruct a span from the joined header
values, wrap the stream with a context carrying the span, run the
handler (whose sends/receives are `ops` and whose return value is
`handlerErr`), and finally run the deferred `span.Finish()` on the same
span object the wrapper may already have finished. -/
def GRPCStreamServerInterceptor (ctx : SrvCtx) (ops : List StreamOp)
    (handlerErr : Option String) : SrvStreamResult :=
  match incomingLookup ctx grpcMetadataKey with
  | some header =>
    let span := SpanFromHeader "" (strJoin header)
    let ctx2 := { ctx with span := span }
    let w := ServerStreamWrapper.run ⟨span, ctx2⟩ ops
    ⟨true, span, handlerErr, Span.Finish w.span⟩
  | none =>
    ⟨false, ctx.span, handlerErr, none⟩

/-! ## Finish triggers for claim C1 -/

/-- The distinct trigger paths that finish a stream wrapper's span:
a failed send, a failed receive (both wrappers), and the client's
explicit `CloseSend`. Each carries the underlying error where one is
involved. -/
inductive FinishTrigger where
  | clientSendErr (e : String)
  | clientRecvErr (e : String)
  | clientCloseSend
  | serverSendErr (e : String)
  | serverRecvErr (e : String)

/-- The effect of one trigger on the span object's state, routed through
the corresponding wrapper method. -/
def applyTrigger (sp : Option SpanData) : FinishTrigger → Option SpanData
  | FinishTrigger.clientSendErr e => (ClientStreamWrapper.SendMsg ⟨sp⟩ (some e)).1.span
  | FinishTrigger.clientRecvErr e => (ClientStreamWrapper.RecvMsg ⟨sp⟩ (some e)).1.span
  | FinishTrigger.clientCloseSend => (ClientStreamWrapper.CloseSend ⟨sp⟩ none).1.span
  | FinishTrigger.serverSendErr e =>
      (ServerStreamWrapper.SendMsg ⟨sp, ⟨none, sp⟩⟩ (some e)).1.span
  | FinishTrigger.serverRecvErr e =>
      (ServerStreamWrapper.RecvMsg ⟨sp, ⟨none, sp⟩⟩ (some e)).1.span

/-! ## Helper lemmas about `Finish` and the wrappers -/

theorem Span.Finish_idem (sp : Option SpanData) :
    Span.Finish (Span.Finish sp) = Span.Finish sp := by
  cases sp with
  | none => rfl
  | some s =>
    by_cases h : s.finished
    · simp [Span.Finish, h]
    · simp [Span.Finish, h]

theorem Finish_some_unfinished (s : SpanData) (h : s.finished = false) :
    Span.Finish (some s) = some { s with finished := true, reported := s.reported + 1 } := by
  simp [Span.Finish, h]

theorem applyTrigger_eq_finish (sp : SpanData) (t : FinishTrigger) :
    applyTrigger (some sp) t = Span.Finish (some sp) := by
  cases t <;> rfl

theorem sendMsg_span_or (w : ServerStreamWrapper) (e : Option String) :
    (ServerStreamWrapper.SendMsg w e).1.span = w.span ∨
    (ServerStreamWrapper.SendMsg w e).1.span = Span.Finish w.span := by
  unfold ServerStreamWrapper.SendMsg
  by_cases hc : (e.isSome && w.span.isSome) = true
  · rw [if_pos hc]; right; rfl
  · rw [if_neg hc]; left; rfl

theorem recvMsg_span_or (w : ServerStreamWrapper) (e : Option String) :
    (ServerStreamWrapper.RecvMsg w e).1.span = w.span ∨
    (ServerStreamWrapper.RecvMsg w e).1.span = Span.Finish w.span := by
  unfold ServerStreamWrapper.RecvMsg
  by_cases hc : (e.isSome && w.span.isSome) = true
  · rw [if_pos hc]; right; rfl
  · rw [if_neg hc]; left; rfl

/-- However the handler interleaves sends and receives, the wrapper's
span object ends up either untouched or finished exactly once. -/
theorem run_span_or (ops : List StreamOp) : ∀ w : ServerStreamWrapper,
    (ServerStreamWrapper.run w ops).span = w.span ∨
    (ServerStreamWrapper.run w ops).span = Span.Finish w.span := by
  induction ops with
  | nil => intro w; exact Or.inl rfl
  | cons op rest ih =>
    intro w
    cases op with
    | send e =>
      simp only [ServerStreamWrapper.run]
      rcases ih (ServerStreamWrapper.SendMsg w e).1 with h1 | h1 <;>
        rcases sendMsg_span_or w e with h2 | h2 <;> rw [h1, h2]
      · exact Or.inl rfl
      · exact Or.inr rfl
      · exact Or.inr rfl
      · exact Or.inr (Span.Finish_idem w.span)
    | recv e =>
      simp only [ServerStreamWrapper.run]
      rcases ih (ServerStreamWrapper.RecvMsg w e).1 with h1 | h1 <;>
        rcases recvMsg_span_or w e with h2 | h2 <;> rw [h1, h2]
      · exact Or.inl rfl
      · exact Or.inr rfl
      · exact Or.inr rfl
      · exact Or.inr (Span.Finish_idem w.span)

/-! ## Claim theorems -/

/-- C1: for every stream wrapper (client or server) whose span is
finished via two different trigger paths in sequence — a failed send
followed by a failed receive, a failed send followed by `CloseSend`,
etc. — the second trigger does not fault (it leaves the span state
exactly as the first trigger left it) and the span is reported exactly
once. -/
theorem claim_C1_double_trigger_reports_once (sp : SpanData) (t1 t2 : FinishTrigger)
    (h : sp.finished = false) :
    applyTrigger (applyTrigger (some sp) t1) t2 = applyTrigger (some sp) t1 ∧
    ∃ s2, applyTrigger (applyTrigger (some sp) t1) t2 = some s2 ∧
      s2.finished = true ∧ s2.reported = sp.reported + 1 := by
  have h1 : Span.Finish (some sp)
      = some { sp with finished := true, reported := sp.reported + 1 } :=
    Finish_some_unfinished sp h
  have h2 : applyTrigger (applyTrigger (some sp) t1) t2 = applyTrigger (some sp) t1 := by
    rw [applyTrigger_eq_finish sp t1, h1,
      applyTrigger_eq_finish { sp with finished := true, reported := sp.reported + 1 } t2]
    rw [← h1, Span.Finish_idem]
  refine ⟨h2, { sp with finished := true, reported := sp.reported + 1 }, ?_, rfl, rfl⟩
  rw [h2, applyTrigger_eq_finish sp t1, h1]

theorem claim_C1_witness :
    (⟨"tid", 7, 3, 1, "m", [], false, 0⟩ : SpanData).finished = false ∧
    (applyTrigger (applyTrigger (some ⟨"tid", 7, 3, 1, "m", [], false, 0⟩)
        (FinishTrigger.clientSendErr "send failed")) (FinishTrigger.clientRecvErr "recv failed")
      = applyTrigger (some ⟨"tid", 7, 3, 1, "m", [], false, 0⟩)
        (FinishTrigger.clientSendErr "send failed") ∧
    ∃ s2, applyTrigger (applyTrigger (some ⟨"tid", 7, 3, 1, "m", [], false, 0⟩)
        (FinishTrigger.clientSendErr "send failed")) (FinishTrigger.clientRecvErr "recv failed")
      = some s2 ∧ s2.finished = true ∧
        s2.reported = (⟨"tid", 7, 3, 1, "m", [], false, 0⟩ : SpanData).reported + 1) :=
  ⟨rfl, claim_C1_double_trigger_reports_once ⟨"tid", 7, 3, 1, "m", [], false, 0⟩
    (FinishTrigger.clientSendErr "send failed") (FinishTrigger.clientRecvErr "recv failed") rfl⟩

/-- C2: for every server streaming call whose incoming metadata contains
the trace-header key, after the interceptor returns the reconstructed
span is finished and was reported exactly once, whether or not an error
path inside the handler already finished it. -/
theorem claim_C2_stream_server_span_finished (ctx : SrvCtx) (ops : List StreamOp)
    (herr : Option String) (vs : List String)
    (h : incomingLookup ctx grpcMetadataKey = some vs) :
    ∃ s2, (GRPCStreamServerInterceptor ctx ops herr).spanAfter = some s2 ∧
      s2.finished = true ∧ s2.reported = 1 := by
  unfold GRPCStreamServerInterceptor
  rw [h]
  simp only
  rcases run_span_or ops ⟨SpanFromHeader "" (strJoin vs),
      { ctx with span := SpanFromHeader "" (strJoin vs) }⟩ with h1 | h1 <;> rw [h1]
  · exact ⟨_, congrArg Span.Finish rfl, rfl, rfl⟩
  · rw [Span.Finish_idem]
    exact ⟨_, rfl, rfl, rfl⟩

theorem claim_C2_witness :
    incomingLookup ⟨some (mdPairs grpcMetadataKey "abc/42;o=1"), none⟩ grpcMetadataKey
      = some ["abc/42;o=1"] ∧
    ∃ s2, (GRPCStreamServerInterceptor ⟨some (mdPairs grpcMetadataKey "abc/42;o=1"), none⟩
        [StreamOp.recv (some "eof")] none).spanAfter = some s2 ∧
      s2.finished = true ∧ s2.reported = 1 :=
  ⟨by decide,
   claim_C2_stream_server_span_finished ⟨some (mdPairs grpcMetadataKey "abc/42;o=1"), none⟩
     [StreamOp.recv (some "eof")] none ["abc/42;o=1"] (by decide)⟩

/-- C5: decoding the header string produced by encoding a valid triple
returns exactly that triple — `decode(encode(t, s, o)) = (t, s, o)` —
where validity means the traceID contains no `/` separator character. -/
theorem claim_C5_decode_encode_roundtrip (t : String) (s o : Nat)
    (ht : ∀ c ∈ t.data, (c != '/') = true) :
    decodeHeader (spanHeader t s o) = (t, s, o) :=
  decode_spanHeader t s o ht

theorem injectSpanHeader_outMD (ctx : Ctx) (st : MDStore) (s : SpanData) :
    (injectSpanHeader ctx st (some s)).1.outMD = some st.size := by
  unfold injectSpanHeader
  cases h : ctx.outMD <;> simp [h, MDStore.alloc]

theorem injectSpanHeader_sets_key (ctx : Ctx) (st : MDStore) (s : SpanData) :
    (injectSpanHeader ctx st (some s)).2.bags st.size grpcMetadataKey
      = some [spanHeader s.traceID s.parentSpanId s.options] := by
  unfold injectSpanHeader
  cases h : ctx.outMD with
  | none => simp [h, MDStore.alloc, mdPairs]
  | some r0 => simp [h, MDStore.alloc, MDStore.setKey, mdSet]

theorem injectSpanHeader_preserves (ctx : Ctx) (st : MDStore) (span : Option SpanData)
    (r : Nat) (hr : r < st.size) (k : String) :
    (injectSpanHeader ctx st span).2.bags r k = st.bags r k := by
  have hne : r ≠ st.size := Nat.ne_of_lt hr
  unfold injectSpanHeader
  cases span with
  | none => rfl
  | some s =>
    cases h : ctx.outMD with
    | none => simp [h, MDStore.alloc, hne]
    | some r0 => simp [h, MDStore.alloc, MDStore.setKey, hne]

/-- C3: for every unary client call whose context carries an ambient
span S, the metadata bag installed on the context passed to the invoker
maps the trace-header key to exactly one entry, the encoded header of
the child span, and decoding that entry yields as its span-id slot —
the value the receiving side uses as parent-span-id — exactly S's
span-id. The traceID is assumed free of the `/` separator, as every
well-formed trace identifier is. -/
theorem claim_C3_unary_installs_one_header (ctx : Ctx) (st : MDStore) (method : String)
    (newID : Nat) (invoker : Ctx → Option String) (S : SpanData)
    (hS : ctx.span = some S) (ht : ∀ c ∈ S.traceID.data, (c != '/') = true) :
    (grpcUnaryInterceptor ctx st method newID invoker).invCtx.outMD = some st.size ∧
    (grpcUnaryInterceptor ctx st method newID invoker).store.bags st.size grpcMetadataKey
      = some [spanHeader S.traceID S.spanID S.options] ∧
    (decodeHeader (spanHeader S.traceID S.spanID S.options)).2.1 = S.spanID := by
  have hchild : Span.NewChild ctx.span method newID
      = some ⟨S.traceID, newID, S.spanID, S.options, method, [], false, 0⟩ := by
    rw [hS]; rfl
  refine ⟨?_, ?_, ?_⟩
  · show (injectSpanHeader ctx st (Span.NewChild ctx.span method newID)).1.outMD = some st.size
    rw [hchild]
    exact injectSpanHeader_outMD ctx st _
  · show (injectSpanHeader ctx st (Span.NewChild ctx.span method newID)).2.bags
        st.size grpcMetadataKey = some [spanHeader S.traceID S.spanID S.options]
    rw [hchild]
    exact injectSpanHeader_sets_key ctx st _
  · rw [decode_spanHeader S.traceID S.spanID S.options ht]

theorem claim_C3_witness :
    ((⟨some ⟨"abc", 42, 7, 1, "root", [], false, 0⟩, none⟩ : Ctx).span
        = some ⟨"abc", 42, 7, 1, "root", [], false, 0⟩ ∧
      ∀ c ∈ (("abc" : String)).data, (c != '/') = true) ∧
    ((grpcUnaryInterceptor ⟨some ⟨"abc", 42, 7, 1, "root", [], false, 0⟩, none⟩
        ⟨0, fun _ => fun _ => none⟩ "svc.Method" 9 (fun _ => none)).invCtx.outMD = some 0 ∧
    (grpcUnaryInterceptor ⟨some ⟨"abc", 42, 7, 1, "root", [], false, 0⟩, none⟩
        ⟨0, fun _ => fun _ => none⟩ "svc.Method" 9 (fun _ => none)).store.bags 0 grpcMetadataKey
      = some [spanHeader "abc" 42 1] ∧
    (decodeHeader (spanHeader "abc" 42 1)).2.1 = 42) :=
  ⟨⟨rfl, by decide⟩,
   claim_C3_unary_installs_one_header ⟨some ⟨"abc", 42, 7, 1, "root", [], false, 0⟩, none⟩
     ⟨0, fun _ => fun _ => none⟩ "svc.Method" 9 (fun _ => none)
     ⟨"abc", 42, 7, 1, "root", [], false, 0⟩ rfl (by decide)⟩

/-- C4: for every unary or streaming client call with an ambient span
and a pre-existing outgoing metadata bag (reference `r`), the
interceptor installs a freshly allocated copy (reference `st.size`,
distinct from `r`) on the call context, and the caller's original bag
maps every key to the same value sequence after the call as before. -/
theorem claim_C4_original_bag_unmodified (ctx : Ctx) (st : MDStore) (method : String)
    (newID : Nat) (invoker streamer : Ctx → Option String) (S : SpanData) (r : Nat)
    (hS : ctx.span = some S) (_hmd : ctx.outMD = some r) (hr : r < st.size) :
    ((grpcUnaryInterceptor ctx st method newID invoker).invCtx.outMD = some st.size ∧
      st.size ≠ r ∧
      ∀ k, (grpcUnaryInterceptor ctx st method newID invoker).store.bags r k = st.bags r k) ∧
    ((grpcStreamClientInterceptor ctx st method newID streamer).invCtx.outMD = some st.size ∧
      ∀ k, (grpcStreamClientInterceptor ctx st method newID streamer).store.bags r k
        = st.bags r k) := by
  have hchild : Span.NewChild ctx.span method newID
      = some ⟨S.traceID, newID, S.spanID, S.options, method, [], false, 0⟩ := by
    rw [hS]; rfl
  have hne : st.size ≠ r := (Nat.ne_of_lt hr).symm
  refine ⟨⟨?_, hne, ?_⟩, ?_, ?_⟩
  · show (injectSpanHeader ctx st (Span.NewChild ctx.span method newID)).1.outMD = some st.size
    rw [hchild]; exact injectSpanHeader_outMD ctx st _
  · intro k
    show (injectSpanHeader ctx st (Span.NewChild ctx.span method newID)).2.bags r k = st.bags r k
    exact injectSpanHeader_preserves ctx st _ r hr k
  · show (injectSpanHeader ctx st (Span.NewChild ctx.span method newID)).1.outMD = some st.size
    rw [hchild]; exact injectSpanHeader_outMD ctx st _
  · intro k
    show (injectSpanHeader ctx st (Span.NewChild ctx.span method newID)).2.bags r k = st.bags r k
    exact injectSpanHeader_preserves ctx st _ r hr k

theorem claim_C4_witness :
    ((⟨some ⟨"abc", 42, 7, 1, "root", [], false, 0⟩, some 0⟩ : Ctx).span
        = some ⟨"abc", 42, 7, 1, "root", [], false, 0⟩ ∧
      (⟨some ⟨"abc", 42, 7, 1, "root", [], false, 0⟩, some 0⟩ : Ctx).outMD = some 0 ∧
      0 < (⟨1, fun _ => fun k => if k = "k0" then some ["v0"] else none⟩ : MDStore).size) ∧
    (((grpcUnaryInterceptor ⟨some ⟨"abc", 42, 7, 1, "root", [], false, 0⟩, some 0⟩
        ⟨1, fun _ => fun k => if k = "k0" then some ["v0"] else none⟩ "svc.Method" 9
        (fun _ => none)).invCtx.outMD = some 1 ∧
      (1 : Nat) ≠ 0 ∧
      ∀ k, (grpcUnaryInterceptor ⟨some ⟨"abc", 42, 7, 1, "root", [], false, 0⟩, some 0⟩
        ⟨1, fun _ => fun k => if k = "k0" then some ["v0"] else none⟩ "svc.Method" 9
        (fun _ => none)).store.bags 0 k
          = (⟨1, fun _ => fun k => if k = "k0" then some ["v0"] else none⟩ : MDStore).bags 0 k) ∧
    ((grpcStreamClientInterceptor ⟨some ⟨"abc", 42, 7, 1, "root", [], false, 0⟩, some 0⟩
        ⟨1, fun _ => fun k => if k = "k0" then some ["v0"] else none⟩ "svc.Method" 9
        (fun _ => none)).invCtx.outMD = some 1 ∧
      ∀ k, (grpcStreamClientInterceptor ⟨some ⟨"abc", 42, 7, 1, "root", [], false, 0⟩, some 0⟩
        ⟨1, fun _ => fun k => if k = "k0" then some ["v0"] else none⟩ "svc.Method" 9
        (fun _ => none)).store.bags 0 k
          = (⟨1, fun _ => fun k => if k = "k0" then some ["v0"] else none⟩ : MDStore).bags 0 k)) :=
  ⟨⟨rfl, rfl, by decide⟩,
   claim_C4_original_bag_unmodified ⟨some ⟨"abc", 42, 7, 1, "root", [], false, 0⟩, some 0⟩
     ⟨1, fun _ => fun k => if k = "k0" then some ["v0"] else none⟩ "svc.Method" 9
     (fun _ => none) (fun _ => none) ⟨"abc", 42, 7, 1, "root", [], false, 0⟩ 0
     rfl rfl (by decide)⟩

/-- C6: for every streaming client call where stream establishment
fails, the interceptor returns no wrapper, propagates the establishment
error unchanged, and has finished the derived child span before
returning (when an ambient span was present, the final span state is
finished). -/
theorem claim_C6_establishment_failure (ctx : Ctx) (st : MDStore) (method : String)
    (newID : Nat) (streamer : Ctx → Option String) (e : String)
    (h : streamer (injectSpanHeader ctx st (Span.NewChild ctx.span method newID)).1 = some e) :
    (grpcStreamClientInterceptor ctx st method newID streamer).wrapper = none ∧
    (grpcStreamClientInterceptor ctx st method newID streamer).retErr = some e ∧
    (grpcStreamClientInterceptor ctx st method newID streamer).spanAfter
      = Span.Finish (Span.NewChild ctx.span method newID) ∧
    (∀ S, ctx.span = some S → ∃ s2,
      (grpcStreamClientInterceptor ctx st method newID streamer).spanAfter = some s2 ∧
      s2.finished = true) := by
  simp only [grpcStreamClientInterceptor, h]
  refine ⟨trivial, trivial, trivial, ?_⟩
  intro S hS
  rw [hS]
  exact ⟨_, rfl, rfl⟩

theorem claim_C6_witness :
    ((fun _ => some "dial failed" : Ctx → Option String)
        (injectSpanHeader ⟨some ⟨"abc", 42, 7, 1, "root", [], false, 0⟩, none⟩
          ⟨0, fun _ => fun _ => none⟩
          (Span.NewChild (⟨some ⟨"abc", 42, 7, 1, "root", [], false, 0⟩, none⟩ : Ctx).span
            "svc.Method" 9)).1 = some "dial failed") ∧
    ((grpcStreamClientInterceptor ⟨some ⟨"abc", 42, 7, 1, "root", [], false, 0⟩, none⟩
        ⟨0, fun _ => fun _ => none⟩ "svc.Method" 9
        (fun _ => some "dial failed")).wrapper = none ∧
    (grpcStreamClientInterceptor ⟨some ⟨"abc", 42, 7, 1, "root", [], false, 0⟩, none⟩
        ⟨0, fun _ => fun _ => none⟩ "svc.Method" 9
        (fun _ => some "dial failed")).retErr = some "dial failed" ∧
    (grpcStreamClientInterceptor ⟨some ⟨"abc", 42, 7, 1, "root", [], false, 0⟩, none⟩
        ⟨0, fun _ => fun _ => none⟩ "svc.Method" 9
        (fun _ => some "dial failed")).spanAfter
      = Span.Finish (Span.NewChild
          (⟨some ⟨"abc", 42, 7, 1, "root", [], false, 0⟩, none⟩ : Ctx).span "svc.Method" 9) ∧
    (∀ S, (⟨some ⟨"abc", 42, 7, 1, "root", [], false, 0⟩, none⟩ : Ctx).span = some S →
      ∃ s2, (grpcStreamClientInterceptor ⟨some ⟨"abc", 42, 7, 1, "root", [], false, 0⟩, none⟩
        ⟨0, fun _ => fun _ => none⟩ "svc.Method" 9
        (fun _ => some "dial failed")).spanAfter = some s2 ∧ s2.finished = true)) :=
  ⟨rfl,
   claim_C6_establishment_failure ⟨some ⟨"abc", 42, 7, 1, "root", [], false, 0⟩, none⟩
     ⟨0, fun _ => fun _ => none⟩ "svc.Method" 9 (fun _ => some "dial failed")
     "dial failed" rfl⟩

/-- C7: for every unary client call whose context carries no ambient
span, the interceptor invokes the underlying call with the original
context (no header injection, metadata heap untouched), raises no error
of its own (it returns exactly the invoker's result), and no span
exists afterwards. -/
theorem claim_C7_no_span_passthrough (ctx : Ctx) (st : MDStore) (method : String)
    (newID : Nat) (invoker : Ctx → Option String) (h : ctx.span = none) :
    (grpcUnaryInterceptor ctx st method newID invoker).invCtx = ctx ∧
    (grpcUnaryInterceptor ctx st method newID invoker).store = st ∧
    (grpcUnaryInterceptor ctx st method newID invoker).retErr = invoker ctx ∧
    (grpcUnaryInterceptor ctx st method newID invoker).spanAfter = none := by
  simp only [grpcUnaryInterceptor, Span.NewChild, h, injectSpanHeader]
  refine ⟨trivial, trivial, trivial, ?_⟩
  cases invoker ctx <;> rfl

theorem claim_C7_witness :
    (⟨none, none⟩ : Ctx).span = none ∧
    ((grpcUnaryInterceptor ⟨none, none⟩ ⟨0, fun _ => fun _ => none⟩ "svc.Method" 9
        (fun _ => none)).invCtx = ⟨none, none⟩ ∧
    (grpcUnaryInterceptor ⟨none, none⟩ ⟨0, fun _ => fun _ => none⟩ "svc.Method" 9
        (fun _ => none)).store = ⟨0, fun _ => fun _ => none⟩ ∧
    (grpcUnaryInterceptor ⟨none, none⟩ ⟨0, fun _ => fun _ => none⟩ "svc.Method" 9
        (fun _ => none)).retErr = (fun _ => none : Ctx → Option String) ⟨none, none⟩ ∧
    (grpcUnaryInterceptor ⟨none, none⟩ ⟨0, fun _ => fun _ => none⟩ "svc.Method" 9
        (fun _ => none)).spanAfter = none) :=
  ⟨rfl, claim_C7_no_span_passthrough ⟨none, none⟩ ⟨0, fun _ => fun _ => none⟩ "svc.Method" 9
    (fun _ => none) rfl⟩

/-- C8: for every unary client call with an ambient span, the
interceptor returns the invoker's error unchanged; when that error is
non-nil its message is attached as a label keyed `"error"` on the child
span, and when it is nil the child span carries no labels at all. -/
theorem claim_C8_error_label (ctx : Ctx) (st : MDStore) (method : String)
    (newID : Nat) (invoker : Ctx → Option String) (S : SpanData)
    (hS : ctx.span = some S) :
    (grpcUnaryInterceptor ctx st method newID invoker).retErr
      = invoker (injectSpanHeader ctx st (Span.NewChild ctx.span method newID)).1 ∧
    (∀ e, invoker (injectSpanHeader ctx st (Span.NewChild ctx.span method newID)).1 = some e →
      ∃ s2, (grpcUnaryInterceptor ctx st method newID invoker).spanAfter = some s2 ∧
        ("error", e) ∈ s2.labels) ∧
    (invoker (injectSpanHeader ctx st (Span.NewChild ctx.span method newID)).1 = none →
      ∃ s2, (grpcUnaryInterceptor ctx st method newID invoker).spanAfter = some s2 ∧
        s2.labels = []) := by
  simp only [grpcUnaryInterceptor]
  cases he : invoker (injectSpanHeader ctx st (Span.NewChild ctx.span method newID)).1 with
  | none =>
    refine ⟨trivial, ?_, ?_⟩
    · intro e h'; cases h'
    · intro _
      rw [hS]
      exact ⟨_, rfl, rfl⟩
  | some e0 =>
    refine ⟨trivial, ?_, ?_⟩
    · intro e h'
      cases h'
      rw [hS]
      exact ⟨_, rfl, by simp [Span.NewChild, Span.SetLabel]⟩
    · intro h'; cases h'

theorem claim_C8_witness :
    (⟨some ⟨"abc", 42, 7, 1, "root", [], false, 0⟩, none⟩ : Ctx).span
      = some ⟨"abc", 42, 7, 1, "root", [], false, 0⟩ ∧
    ((grpcUnaryInterceptor ⟨some ⟨"abc", 42, 7, 1, "root", [], false, 0⟩, none⟩
        ⟨0, fun _ => fun _ => none⟩ "svc.Method" 9 (fun _ => some "boom")).retErr
      = (fun _ => some "boom" : Ctx → Option String)
          (injectSpanHeader ⟨some ⟨"abc", 42, 7, 1, "root", [], false, 0⟩, none⟩
            ⟨0, fun _ => fun _ => none⟩
            (Span.NewChild (⟨some ⟨"abc", 42, 7, 1, "root", [], false, 0⟩, none⟩ : Ctx).span
              "svc.Method" 9)).1 ∧
    (∀ e, (fun _ => some "boom" : Ctx → Option String)
          (injectSpanHeader ⟨some ⟨"abc", 42, 7, 1, "root", [], false, 0⟩, none⟩
            ⟨0, fun _ => fun _ => none⟩
            (Span.NewChild (⟨some ⟨"abc", 42, 7, 1, "root", [], false, 0⟩, none⟩ : Ctx).span
              "svc.Method" 9)).1 = some e →
      ∃ s2, (grpcUnaryInterceptor ⟨some ⟨"abc", 42, 7, 1, "root", [], false, 0⟩, none⟩
          ⟨0, fun _ => fun _ => none⟩ "svc.Method" 9 (fun _ => some "boom")).spanAfter
        = some s2 ∧ ("error", e) ∈ s2.labels) ∧
    ((fun _ => some "boom" : Ctx → Option String)
          (injectSpanHeader ⟨some ⟨"abc", 42, 7, 1, "root", [], false, 0⟩, none⟩
            ⟨0, fun _ => fun _ => none⟩
            (Span.NewChild (⟨some ⟨"abc", 42, 7, 1, "root", [], false, 0⟩, none⟩ : Ctx).span
              "svc.Method" 9)).1 = none →
      ∃ s2, (grpcUnaryInterceptor ⟨some ⟨"abc", 42, 7, 1, "root", [], false, 0⟩, none⟩
          ⟨0, fun _ => fun _ => none⟩ "svc.Method" 9 (fun _ => some "boom")).spanAfter
        = some s2 ∧ s2.labels = [])) :=
  ⟨rfl, claim_C8_error_label ⟨some ⟨"abc", 42, 7, 1, "root", [], false, 0⟩, none⟩
    ⟨0, fun _ => fun _ => none⟩ "svc.Method" 9 (fun _ => some "boom")
    ⟨"abc", 42, 7, 1, "root", [], false, 0⟩ rfl⟩

/-- C9: for every unary server call whose incoming metadata does not
contain the trace-header key, the handler runs with the original
incoming context, no span object is created or finished, and the
handler's response and error are returned unchanged. -/
theorem claim_C9_server_no_header {α : Type} (ctx : SrvCtx)
    (handler : SrvCtx → α × Option String)
    (h : incomingLookup ctx grpcMetadataKey = none) :
    (GRPCServerInterceptor ctx handler).handlerCtx = ctx ∧
    (GRPCServerInterceptor ctx handler).spanAfter = none ∧
    (GRPCServerInterceptor ctx handler).resp = (handler ctx).1 ∧
    (GRPCServerInterceptor ctx handler).retErr = (handler ctx).2 := by
  simp only [GRPCServerInterceptor, h]
  exact ⟨trivial, trivial, trivial, trivial⟩

theorem claim_C9_witness :
    incomingLookup ⟨none, none⟩ grpcMetadataKey = none ∧
    ((GRPCServerInterceptor (⟨none, none⟩ : SrvCtx)
        (fun _ => ((5 : Nat), none))).handlerCtx = ⟨none, none⟩ ∧
    (GRPCServerInterceptor (⟨none, none⟩ : SrvCtx)
        (fun _ => ((5 : Nat), none))).spanAfter = none ∧
    (GRPCServerInterceptor (⟨none, none⟩ : SrvCtx)
        (fun _ => ((5 : Nat), none))).resp
      = ((fun _ => ((5 : Nat), none) : SrvCtx → Nat × Option String) ⟨none, none⟩).1 ∧
    (GRPCServerInterceptor (⟨none, none⟩ : SrvCtx)
        (fun _ => ((5 : Nat), none))).retErr
      = ((fun _ => ((5 : Nat), none) : SrvCtx → Nat × Option String) ⟨none, none⟩).2) :=
  ⟨rfl, claim_C9_server_no_header ⟨none, none⟩ (fun _ => ((5 : Nat), none)) rfl⟩

/-- C10: when the incoming metadata maps the trace-header key to more
than one value, both server interceptors reconstruct the span from the
concatenation of all the values joined with the empty separator — and
that is observably different from using the first value alone, as the
concrete split header shows. -/
theorem claim_C10_joined_header_values {α : Type} (ctx : SrvCtx)
    (handler : SrvCtx → α × Option String) (ops : List StreamOp) (herr : Option String)
    (vs : List String) (hv : incomingLookup ctx grpcMetadataKey = some vs)
    (_hlen : 1 < vs.length) :
    (GRPCServerInterceptor ctx handler).handlerCtx.span = SpanFromHeader "" (strJoin vs) ∧
    (GRPCStreamServerInterceptor ctx ops herr).handlerCtxSpan
      = SpanFromHeader "" (strJoin vs) ∧
    SpanFromHeader "" (strJoin ["abc/4", "2;o=1"]) ≠ SpanFromHeader "" "abc/4" := by
  refine ⟨?_, ?_, by decide⟩
  · simp only [GRPCServerInterceptor, hv]
  · simp only [GRPCStreamServerInterceptor, hv]

theorem claim_C10_witness :
    (incomingLookup ⟨some (fun k => if k = grpcMetadataKey
        then some ["abc/4", "2;o=1"] else none), none⟩ grpcMetadataKey
      = some ["abc/4", "2;o=1"] ∧
     1 < (["abc/4", "2;o=1"] : List String).length) ∧
    ((GRPCServerInterceptor (⟨some (fun k => if k = grpcMetadataKey
        then some ["abc/4", "2;o=1"] else none), none⟩ : SrvCtx)
        (fun _ => ((5 : Nat), none))).handlerCtx.span
      = SpanFromHeader "" (strJoin ["abc/4", "2;o=1"]) ∧
    (GRPCStreamServerInterceptor ⟨some (fun k => if k = grpcMetadataKey
        then some ["abc/4", "2;o=1"] else none), none⟩ [] none).handlerCtxSpan
      = SpanFromHeader "" (strJoin ["abc/4", "2;o=1"]) ∧
    SpanFromHeader "" (strJoin ["abc/4", "2;o=1"]) ≠ SpanFromHeader "" "abc/4") :=
  ⟨⟨by decide, by decide⟩,
   claim_C10_joined_header_values ⟨some (fun k => if k = grpcMetadataKey
       then some ["abc/4", "2;o=1"] else none), none⟩
     (fun _ => ((5 : Nat), none)) [] none ["abc/4", "2;o=1"] (by decide) (by decide)⟩

theorem claim_C5_witness :
    (∀ c ∈ ("0123456789abcdef0123456789abcdef" : String).data, (c != '/') = true) ∧
    decodeHeader (spanHeader "0123456789abcdef0123456789abcdef" 42 1)
      = ("0123456789abcdef0123456789abcdef", 42, 1) :=
  ⟨by decide, claim_C5_decode_encode_roundtrip "0123456789abcdef0123456789abcdef" 42 1 (by decide)⟩

end Trace
